import Mathlib

/-!
Shallow embedding of the CVRP wrapper in `src/model.py` (package
`ortools-pyinteractive`).

The module's own code is:
  * `get_dropped_nodes(model, assignment)` — positions whose assigned
    successor is themselves;
  * `solve(...)` — resolves configuration (the uppercase locals
    `DEMAND`, `NUM_VEHICLES`, `SOFT_DISTANCE_CONSTRAINT`, ...), builds an
    ortools routing model, calls `SolveWithParameters`, and decodes the
    returned assignment into a list of routes of `Stop` namedtuples.

The ortools objects (`RoutingIndexManager`, `RoutingModel`, the search)
are external collaborators.  They are embedded abstractly: a `Manager`
record carries the index interface the decoder reads
(`IndexToNode`, `Start`, `IsEnd`, `Size`), a `ModelSpec` record carries
every datum `solve` passes into model construction, and the search is a
function `ModelSpec → Option (Nat → Nat)` returning, when a solution is
found, the successor map `idx ↦ assignment.Value(model.NextVar(idx))`.
Python integers are `Int`; list indices are `Nat`; Python list indexing
is embedded with `List.getD` (the decoded walks only index in bounds for
well-formed managers).  Python `None` arguments are `Option.none`.
-/

namespace PyVrp

/-- A member of the `nodes` list: a record with `lat`/`lon` attributes
(`float` in the source; the coordinates are only copied, never computed
with). -/
structure Node where
  lat : Float
  lon : Float

/-- The `Stop` namedtuple built by the decoder:
`STOP = namedtuple("Stop", ["idx", "lat", "lon", "demand", "dist"])`. -/
structure Stop where
  idx : Nat
  lat : Float
  lon : Float
  demand : Int
  dist : Int

/-- The value returned by a successful `solve`: a list of routes, each a
list of `Stop`. -/
abbrev Solution := List (List Stop)

/-- Python `matrix[i][j]` on the distance matrix. -/
def mget (m : List (List Int)) (i j : Nat) : Int :=
  (m.getD i []).getD j 0

/-- Python `xs[i]` on an `Int` list. -/
def dget (xs : List Int) (i : Nat) : Int :=
  xs.getD i 0

/-- Abstract view of the ortools `RoutingIndexManager` / `RoutingModel`
index interface, as read by `solve`'s decoder and by
`get_dropped_nodes`:
`size` is `model.Size()`, `indexToNode i` is `manager.IndexToNode(i)`,
`start v` is `model.Start(v)`, and `isEnd i` is `model.IsEnd(i)`. -/
structure Manager where
  size : Nat
  indexToNode : Nat → Nat
  start : Nat → Nat
  isEnd : Nat → Bool

/-- The arguments of `solve`, with the source's default values.
`num_vehicles` and `soft_distance_constrint_int` default to Python
`None` (`Option.none`); supplying an integer is `Option.some`. -/
structure Args where
  nodes : List Node
  distance_matrix : List (List Int)
  demand : List Int
  depot_index : Nat := 0
  vehicle_cap : Int := 26
  num_vehicles : Option Int := none
  distance_constraint_int : Int := 100000
  soft_distance_constrint_int : Option Int := none
  soft_distance_penalty : Int := 100000
  max_search_seconds : Int := 5

/-- Python truthiness test `not x` for an optional-integer argument:
true exactly on `None` and `0`. -/
def falsy : Option Int → Bool
  | none => true
  | some k => k == 0

/-- The uppercase configuration locals of `solve` after the resolution
block at its top. -/
structure Config where
  NODES : List Node
  DISTANCE_MATRIX : List (List Int)
  NUM_NODES : Nat
  DEMAND : List Int
  DEPOT_INDEX : Nat
  VEHICLE_CAP : Int
  NUM_VEHICLES : Int
  VEHICLES : List Int
  DISTANCE_CONSTRAINT : Int
  SOFT_DISTANCE_CONSTRAINT : Int
  SOFT_DISTANCE_PENALTY : Int
  MAX_SEARCH_SECONDS : Int

/-- The configuration-resolution block of `solve` (the assignments to the
uppercase locals).  Notes kept faithful to the source:
  * `DEMAND` is left-padded with one `0` exactly when
    `len(distance_matrix) - 1 == len(demand)` (integer arithmetic, hence
    the `Int` casts);
  * `NUM_VEHICLES` falls back to `len(DEMAND[1:])` when `num_vehicles`
    is falsy (`None` or `0`);
  * in the soft-bound resolution, the source's `else` branch assigns
    `distance_constraint_int` — the hard bound — not the
    `soft_distance_constrint_int` argument;
  * `int(DISTANCE_CONSTRAINT * 0.75)` is embedded as truncated division
    `(3 * DC).tdiv 4`, exact for the magnitudes at hand. -/
def resolveConfig (a : Args) : Config :=
  let DEMAND : List Int :=
    if (a.distance_matrix.length : Int) - 1 = (a.demand.length : Int) then
      0 :: a.demand
    else
      a.demand
  let NUM_VEHICLES : Int :=
    if falsy a.num_vehicles then ((DEMAND.drop 1).length : Int)
    else a.num_vehicles.getD 0
  let SOFT : Int :=
    if falsy a.soft_distance_constrint_int then (a.distance_constraint_int * 3).tdiv 4
    else a.distance_constraint_int
  { NODES := a.nodes
    DISTANCE_MATRIX := a.distance_matrix
    NUM_NODES := a.distance_matrix.length
    DEMAND := DEMAND
    DEPOT_INDEX := a.depot_index
    VEHICLE_CAP := a.vehicle_cap
    NUM_VEHICLES := NUM_VEHICLES
    VEHICLES := List.replicate NUM_VEHICLES.toNat a.vehicle_cap
    DISTANCE_CONSTRAINT := a.distance_constraint_int
    SOFT_DISTANCE_CONSTRAINT := SOFT
    SOFT_DISTANCE_PENALTY := a.soft_distance_penalty
    MAX_SEARCH_SECONDS := a.max_search_seconds }

/-- Everything `solve` feeds into ortools model construction and search:
manager shape, arc-cost/transit data (the callbacks close over
`DISTANCE_MATRIX` and `DEMAND`), the two dimensions' vehicle capacity
vectors, the soft upper bound with its penalty (applied to every
vehicle's end cumul var), and the time limit.  The first-solution
strategy is the constant `PATH_CHEAPEST_ARC` and both dimension slacks
are the constant `0`, so they are not fields. -/
structure ModelSpec where
  numNodes : Nat
  numVehicles : Int
  depot : Nat
  matrix : List (List Int)
  demandVec : List Int
  distanceCaps : List Int
  capacityCaps : List Int
  softBound : Int
  softPenalty : Int
  timeLimitSeconds : Int

/-- The model-construction block of `solve`, as the data handed to the
external collaborators. -/
def mkModelSpec (c : Config) : ModelSpec :=
  { numNodes := c.NUM_NODES
    numVehicles := c.NUM_VEHICLES
    depot := c.DEPOT_INDEX
    matrix := c.DISTANCE_MATRIX
    demandVec := c.DEMAND
    distanceCaps := List.replicate c.NUM_VEHICLES.toNat c.DISTANCE_CONSTRAINT
    capacityCaps := c.VEHICLES
    softBound := c.SOFT_DISTANCE_CONSTRAINT
    softPenalty := c.SOFT_DISTANCE_PENALTY
    timeLimitSeconds := c.MAX_SEARCH_SECONDS }

/-- The body of the decoder's `while` loop:
`STOP(node_index, lat, lon, demand, dist)` built at position `idx` with
the loop's `prev_node_index` variable. -/
def mkStop (m : Manager) (mat : List (List Int)) (nodes : List Node)
    (dem : List Int) (prev_node_index idx : Nat) : Stop :=
  let node_index := m.indexToNode idx
  let nd := nodes.getD node_index { lat := 0.0, lon := 0.0 }
  { idx := node_index
    lat := nd.lat
    lon := nd.lon
    demand := dget dem node_index
    dist := mget mat prev_node_index node_index }

/-- The decoder's `while True` loop for one vehicle, walking the
successor map `nxt` from a start position.  `prev_node_index` is threaded
unchanged through the recursion: the source initialises
`prev_node_index` before the loop but the loop body assigns the distinct
(and otherwise unused) variable `prev_node`, so `prev_node_index` keeps
its initial value for the whole walk.  `fuel` is a termination bound —
the Python loop would simply not terminate on a cyclic successor map, a
case embedded as `none`. -/
def walkRoute (m : Manager) (mat : List (List Int)) (nodes : List Node)
    (dem : List Int) (nxt : Nat → Nat) :
    Nat → Nat → Nat → List Stop → Option (List Stop)
  | 0, _, _, _ => none
  | fuel + 1, idx, prev_node_index, route =>
    if m.isEnd idx then
      some (route ++ [mkStop m mat nodes dem prev_node_index idx])
    else
      walkRoute m mat nodes dem nxt fuel (nxt idx) prev_node_index
        (route ++ [mkStop m mat nodes dem prev_node_index idx])

/-- The decoder's outer `for _route_number in range(model.vehicles())`
loop: a vehicle whose start's successor is already an end is skipped
(`continue`); otherwise its walk's route is appended.  A walk that runs
out of fuel (impossible for an acyclic assignment, divergence in the
Python) makes the whole decode `none`. -/
def decodeRoutes (m : Manager) (mat : List (List Int)) (nodes : List Node)
    (dem : List Int) (nxt : Nat → Nat) : List Nat → Option Solution
  | [] => some []
  | v :: vs =>
    if m.isEnd (nxt (m.start v)) then
      decodeRoutes m mat nodes dem nxt vs
    else
      match walkRoute m mat nodes dem nxt (m.size + 1) (m.start v)
          (m.indexToNode (m.start v)) [] with
      | none => none
      | some r => (decodeRoutes m mat nodes dem nxt vs).map (fun rs => r :: rs)

/-- `solve`: resolve the configuration, build the model
(`mkManager`/`mkModelSpec` stand for the ortools constructors), run the
external search, and decode.  A falsy search result is Python's implicit
`return None`, embedded as `none`. -/
def solve (a : Args) (mkManager : Nat → Int → Nat → Manager)
    (search : ModelSpec → Option (Nat → Nat)) : Option Solution :=
  let c := resolveConfig a
  let manager := mkManager c.NUM_NODES c.NUM_VEHICLES c.DEPOT_INDEX
  match search (mkModelSpec c) with
  | none => none
  | some nxt =>
    decodeRoutes manager c.DISTANCE_MATRIX c.NODES c.DEMAND nxt
      (List.range c.NUM_VEHICLES.toNat)

/-- `get_dropped_nodes(model, assignment)`: the positions
`idx ∈ range(model.Size())` with `assignment.Value(model.NextVar(idx)) == idx`,
collected in loop order. -/
def get_dropped_nodes (size : Nat) (nxt : Nat → Nat) : List Nat :=
  (List.range size).filter (fun idx => nxt idx == idx)

/-! ## Concrete scenarios used by bug evaluations and witnesses -/

/-- Three nodes (depot plus two customers) for the stale-previous-node
scenario. -/
def nodes3 : List Node :=
  [{ lat := 0.0, lon := 0.0 }, { lat := 1.0, lon := 1.0 }, { lat := 2.0, lon := 2.0 }]

/-- Distance matrix for `nodes3`: arcs touching the depot cost 5 or 100,
the arc between customers 1 and 2 costs 8. -/
def mat3 : List (List Int) := [[0, 5, 100], [5, 0, 8], [100, 8, 0]]

/-- `solve(nodes3, mat3, [1, 1], num_vehicles=1)`: a depot-exclusive
demand vector and one vehicle. -/
def args3 : Args :=
  { nodes := nodes3, distance_matrix := mat3, demand := [1, 1], num_vehicles := some 1 }

/-- Index layout an ortools manager exhibits for 3 nodes and 1 vehicle:
positions 1 and 2 are the customers, position 0 the vehicle start and
position 3 the vehicle end, both aliasing the depot node 0. -/
def M3 : Manager :=
  { size := 4
    indexToNode := fun i => if i == 3 then 0 else i
    start := fun _ => 0
    isEnd := fun i => i == 3 }

/-- Assignment visiting both customers: depot start 0 → 1 → 2 → end 3. -/
def nxt3 : Nat → Nat := fun i => i + 1

/-- Manager constructor returning `M3`. -/
def mk3 : Nat → Int → Nat → Manager := fun _ _ _ => M3

/-- Search returning the `nxt3` assignment. -/
def search3 : ModelSpec → Option (Nat → Nat) := fun _ => some nxt3

/-- `solve` call supplying a soft distance bound of 50 (hard bound left
at its default 100000). -/
def args2soft : Args :=
  { nodes := [], distance_matrix := [], demand := [], soft_distance_constrint_int := some 50 }

/-- `solve` call leaving the soft distance bound unspecified. -/
def args2plain : Args := { nodes := [], distance_matrix := [], demand := [] }

/-- Cumulative-demand semantics of the ortools "Capacity" dimension along
one vehicle's successor chain.  Modelled from the spec: the dimension is
an external-collaborator contract (`AddDimensionWithVehicleCapacity`
with the unary `demand_callback`, slack 0, cumul starting at 0), whose
end-of-route cumul is the sum of `DEMAND[IndexToNode(i)]` over the
chain's positions up to, but excluding, the vehicle's end position. -/
def chainDemand (m : Manager) (dem : List Int) (nxt : Nat → Nat) :
    Nat → Nat → Int
  | 0, _ => 0
  | fuel + 1, idx =>
    if m.isEnd idx then 0
    else dget dem (m.indexToNode idx) + chainDemand m dem nxt fuel (nxt idx)

/-- The configurations the spec's §7 calls configuration errors:
non-positive vehicle capacity, a supplied non-positive vehicle count, or
a distance matrix that is not square or has a negative cost. -/
def InvalidConfig (a : Args) : Prop :=
  a.vehicle_cap ≤ 0 ∨
  (∃ k, a.num_vehicles = some k ∧ k ≤ 0) ∨
  ¬ ((∀ row ∈ a.distance_matrix, row.length = a.distance_matrix.length) ∧
     (∀ row ∈ a.distance_matrix, ∀ x ∈ row, 0 ≤ x))

/-- Two nodes and a zero vehicle capacity: a configuration §7 would
reject. -/
def args3bad : Args :=
  { nodes := [{ lat := 0.0, lon := 0.0 }, { lat := 1.0, lon := 1.0 }]
    distance_matrix := [[0, 1], [1, 0]]
    demand := [1]
    vehicle_cap := 0 }

/-- Manager layout for 2 nodes and 1 vehicle: position 1 is the single
customer, position 0 the start and position 2 the end, both aliasing the
depot. -/
def M2 : Manager :=
  { size := 3
    indexToNode := fun i => if i == 2 then 0 else i
    start := fun _ => 0
    isEnd := fun i => i == 2 }

/-- Manager constructor returning `M2`. -/
def mk2 : Nat → Int → Nat → Manager := fun _ _ _ => M2

/-- Search returning the chain 0 → 1 → 2 for the `M2` layout. -/
def search2 : ModelSpec → Option (Nat → Nat) := fun _ => some (fun i => i + 1)

/-- Two nodes but two vehicles: more vehicles than customers. -/
def args7 : Args :=
  { nodes := [{ lat := 0.0, lon := 0.0 }, { lat := 1.0, lon := 1.0 }]
    distance_matrix := [[0, 1], [1, 0]]
    demand := [1]
    num_vehicles := some 2 }

/-- Manager layout for 2 nodes and 2 vehicles: position 2 is the single
customer, positions 0 and 1 the two starts, positions 3 and 4 the two
ends. -/
def M7 : Manager :=
  { size := 5
    indexToNode := fun i => if i == 2 then 1 else 0
    start := fun v => v
    isEnd := fun i => i == 3 || i == 4 }

/-- Assignment for `M7` where vehicle 0 serves the customer
(0 → 2 → 3) and vehicle 1 is unused (1 → 4). -/
def nxt7 : Nat → Nat :=
  fun i => if i == 0 then 2 else if i == 2 then 3 else if i == 1 then 4 else 0

/-- Manager constructor returning `M7`. -/
def mk7 : Nat → Int → Nat → Manager := fun _ _ _ => M7

/-- Search returning the `nxt7` assignment. -/
def search7 : ModelSpec → Option (Nat → Nat) := fun _ => some nxt7

/-- The `args3` scenario with the vehicle count left to its default. -/
def args8 : Args := { nodes := nodes3, distance_matrix := mat3, demand := [1, 1] }

end PyVrp

namespace PyVrp

/-! ## Claim theorems -/

/-- C1: the claim says each decoded Stop's incremental distance equals
`distance_matrix[previous_logical_node][current_logical_node]`.  The
code disagrees: `prev_node_index` is never updated inside the decode
loop (the loop assigns the write-only variable `prev_node` instead), so
every stop's `dist` is taken from the depot row.  On the route
depot → node 1 → node 2 → depot over `mat3`, the stop at node 2 gets
`dist = mat3[0][2] = 100`, while the previous stop is node 1 and
`mat3[1][2] = 8`. -/
theorem incremental_distance_uses_stale_prev_node :
    ((((solve args3 mk3 search3).getD []).getD 0 []).map Stop.idx = [0, 1, 2, 0]) ∧
    ((((solve args3 mk3 search3).getD []).getD 0 []).map Stop.dist = [0, 5, 100, 0]) ∧
    mget mat3 1 2 = 8 ∧ ((100 : Int) ≠ 8) := by
  refine ⟨rfl, rfl, rfl, by decide⟩

/-- C2: the claim says a caller-supplied soft distance bound is the
value applied.  The code's else-branch assigns the hard bound instead:
with `distance_constraint_int = 100000` (default) and a supplied soft
bound of 50, the applied soft upper bound is 100000, not 50.  The
default branch (no soft bound supplied) does apply
`int(0.75 * 100000) = 75000`, as claimed. -/
theorem soft_bound_branch_assigns_hard_bound :
    (resolveConfig args2soft).SOFT_DISTANCE_CONSTRAINT = 100000 ∧
    (mkModelSpec (resolveConfig args2soft)).softBound = 100000 ∧
    args2soft.soft_distance_constrint_int = some 50 ∧
    ((100000 : Int) ≠ 50) ∧
    (resolveConfig args2plain).SOFT_DISTANCE_CONSTRAINT = 75000 ∧
    (mkModelSpec (resolveConfig args2plain)).softBound = 75000 := by
  refine ⟨rfl, rfl, rfl, by decide, rfl, rfl⟩

/-- C9: `get_dropped_nodes` returns exactly the positions
`idx < model.Size()` whose assigned successor is `idx` itself, listed in
increasing position order. -/
theorem get_dropped_nodes_characterisation (size : Nat) (nxt : Nat → Nat) :
    (∀ i, i ∈ get_dropped_nodes size nxt ↔ i < size ∧ nxt i = i) ∧
    (get_dropped_nodes size nxt).Pairwise (· < ·) := by
  constructor
  · intro i
    simp [get_dropped_nodes, List.mem_filter, List.mem_range]
  · exact (List.pairwise_lt_range size).filter _

/-- C10: passing `num_vehicles=0` or `soft_distance_constrint_int=0`
behaves exactly like omitting the argument: the Python falsiness test
`not x` sends both `None` and `0` to the default branch, so the vehicle
count resolves to `len(DEMAND[1:])` and the soft bound to its computed
default. -/
theorem falsy_zero_arguments_resolve_to_defaults (a : Args)
    (mk : Nat → Int → Nat → Manager) (search : ModelSpec → Option (Nat → Nat)) :
    solve { a with num_vehicles := some 0 } mk search =
      solve { a with num_vehicles := none } mk search ∧
    solve { a with soft_distance_constrint_int := some 0 } mk search =
      solve { a with soft_distance_constrint_int := none } mk search ∧
    (resolveConfig { a with num_vehicles := some 0 }).NUM_VEHICLES =
      (((resolveConfig a).DEMAND.drop 1).length : Int) ∧
    (resolveConfig { a with soft_distance_constrint_int := some 0 }).SOFT_DISTANCE_CONSTRAINT =
      (a.distance_constraint_int * 3).tdiv 4 := by
  exact ⟨rfl, rfl, rfl, rfl⟩

end PyVrp

namespace PyVrp

/-! ## Helper lemmas about the decoder -/

/-- A successful walk extends its accumulator with the stop built at the
position it started from. -/
theorem walkRoute_shape (m : Manager) (mat : List (List Int)) (nodes : List Node)
    (dem : List Int) (nxt : Nat → Nat) :
    ∀ fuel idx prev acc out,
      walkRoute m mat nodes dem nxt fuel idx prev acc = some out →
      ∃ t, out = acc ++ mkStop m mat nodes dem prev idx :: t := by
  intro fuel
  induction fuel with
  | zero => intro idx prev acc out h; simp [walkRoute] at h
  | succ n ih =>
    intro idx prev acc out h
    simp only [walkRoute] at h
    split at h
    · exact ⟨[], (Option.some.inj h).symm⟩
    · obtain ⟨t, ht⟩ := ih _ _ _ _ h
      exact ⟨mkStop m mat nodes dem prev (nxt idx) :: t, by
        rw [ht, List.append_assoc, List.singleton_append]⟩

/-- The last stop of a successful walk is built at a position satisfying
`IsEnd`, still with the walk's initial `prev_node_index`. -/
theorem walkRoute_last (m : Manager) (mat : List (List Int)) (nodes : List Node)
    (dem : List Int) (nxt : Nat → Nat) :
    ∀ fuel idx prev acc out,
      walkRoute m mat nodes dem nxt fuel idx prev acc = some out →
      ∃ j, m.isEnd j = true ∧ out.getLast? = some (mkStop m mat nodes dem prev j) := by
  intro fuel
  induction fuel with
  | zero => intro idx prev acc out h; simp [walkRoute] at h
  | succ n ih =>
    intro idx prev acc out h
    simp only [walkRoute] at h
    split at h
    next hEnd =>
      refine ⟨idx, hEnd, ?_⟩
      rw [← Option.some.inj h]
      exact List.getLast?_concat _
    next hEnd => exact ih _ _ _ _ h

/-- The demand sum of a successful walk's stops, excluding the trailing
stop at the end position, is the accumulator's demand sum plus the
Capacity dimension's cumulative demand along the chain. -/
theorem walkRoute_demand_sum (m : Manager) (mat : List (List Int)) (nodes : List Node)
    (dem : List Int) (nxt : Nat → Nat) :
    ∀ fuel idx prev acc out,
      walkRoute m mat nodes dem nxt fuel idx prev acc = some out →
      (out.dropLast.map Stop.demand).sum =
        (acc.map Stop.demand).sum + chainDemand m dem nxt fuel idx := by
  intro fuel
  induction fuel with
  | zero => intro idx prev acc out h; simp [walkRoute] at h
  | succ n ih =>
    intro idx prev acc out h
    simp only [walkRoute] at h
    split at h
    next hEnd =>
      rw [← Option.some.inj h]
      simp [chainDemand, hEnd, List.dropLast_concat]
    next hEnd =>
      have hEnd' : m.isEnd idx = false := by simpa using hEnd
      have hsum := ih _ _ _ _ h
      rw [hsum]
      simp only [chainDemand, hEnd', Bool.false_eq_true, if_neg, not_false_eq_true,
        List.map_append, List.sum_append, List.map_cons, List.map_nil, List.sum_cons,
        List.sum_nil, mkStop]
      ring

/-- Every route of a successful decode is the successful walk of some
vehicle in the list, one whose start's successor is not an end. -/
theorem decodeRoutes_mem (m : Manager) (mat : List (List Int)) (nodes : List Node)
    (dem : List Int) (nxt : Nat → Nat) :
    ∀ vs sol, decodeRoutes m mat nodes dem nxt vs = some sol →
      ∀ r ∈ sol, ∃ v ∈ vs, m.isEnd (nxt (m.start v)) = false ∧
        walkRoute m mat nodes dem nxt (m.size + 1) (m.start v)
          (m.indexToNode (m.start v)) [] = some r := by
  intro vs
  induction vs with
  | nil =>
    intro sol h r hr
    simp only [decodeRoutes, Option.some.injEq] at h
    subst h
    simp at hr
  | cons v vs ih =>
    intro sol h r hr
    simp only [decodeRoutes] at h
    split at h
    next =>
      obtain ⟨w, hw, hrest⟩ := ih sol h r hr
      exact ⟨w, List.mem_cons_of_mem _ hw, hrest⟩
    next hEnd =>
      have hEnd' : m.isEnd (nxt (m.start v)) = false := by simpa using hEnd
      cases hwalk : walkRoute m mat nodes dem nxt (m.size + 1) (m.start v)
          (m.indexToNode (m.start v)) [] with
      | none => rw [hwalk] at h; simp at h
      | some r0 =>
        rw [hwalk] at h
        obtain ⟨rest, hx, hfa⟩ := Option.map_eq_some'.mp h
        subst hfa
        rcases List.mem_cons.mp hr with hr0 | hrmem
        · subst hr0
          exact ⟨v, List.mem_cons_self _ _, hEnd', hwalk⟩
        · obtain ⟨w, hw, hrest⟩ := ih rest hx r hrmem
          exact ⟨w, List.mem_cons_of_mem _ hw, hrest⟩

/-- A successful decode has one route per vehicle whose start's successor
is not an end. -/
theorem decodeRoutes_length (m : Manager) (mat : List (List Int)) (nodes : List Node)
    (dem : List Int) (nxt : Nat → Nat) :
    ∀ vs sol, decodeRoutes m mat nodes dem nxt vs = some sol →
      sol.length = (vs.filter (fun v => !(m.isEnd (nxt (m.start v))))).length := by
  intro vs
  induction vs with
  | nil =>
    intro sol h
    simp only [decodeRoutes, Option.some.injEq] at h
    subst h
    rfl
  | cons v vs ih =>
    intro sol h
    simp only [decodeRoutes] at h
    split at h
    next hEnd =>
      rw [ih sol h, List.filter_cons]
      simp [hEnd]
    next hEnd =>
      have hEnd' : m.isEnd (nxt (m.start v)) = false := by simpa using hEnd
      cases hwalk : walkRoute m mat nodes dem nxt (m.size + 1) (m.start v)
          (m.indexToNode (m.start v)) [] with
      | none => rw [hwalk] at h; simp at h
      | some r0 =>
        rw [hwalk] at h
        obtain ⟨rest, hx, hfa⟩ := Option.map_eq_some'.mp h
        subst hfa
        rw [List.filter_cons]
        simp only [hEnd', Bool.not_false, if_pos, List.length_cons]
        rw [ih rest hx]

/-- A duplicate-free list contained in another list is no longer than
it. -/
theorem nodup_subset_length_le {l t : List Nat} (hn : l.Nodup)
    (hs : ∀ x ∈ l, x ∈ t) : l.length ≤ t.length := by
  classical
  calc l.length = l.toFinset.card := (List.toFinset_card_of_nodup hn).symm
    _ ≤ t.toFinset.card := Finset.card_le_card (by
        intro x hx
        rw [List.mem_toFinset] at hx ⊢
        exact hs x hx)
    _ ≤ t.length := List.toFinset_card_le t

/-- A successful `solve` is the decode of a successful search on the
resolved configuration. -/
theorem solve_eq_some (a : Args) (mk : Nat → Int → Nat → Manager)
    (search : ModelSpec → Option (Nat → Nat)) (sol : Solution)
    (h : solve a mk search = some sol) :
    ∃ nxt, search (mkModelSpec (resolveConfig a)) = some nxt ∧
      decodeRoutes (mk (resolveConfig a).NUM_NODES (resolveConfig a).NUM_VEHICLES
          (resolveConfig a).DEPOT_INDEX)
        (resolveConfig a).DISTANCE_MATRIX (resolveConfig a).NODES
        (resolveConfig a).DEMAND nxt
        (List.range (resolveConfig a).NUM_VEHICLES.toNat) = some sol := by
  simp only [solve] at h
  cases hs : search (mkModelSpec (resolveConfig a)) with
  | none => rw [hs] at h; simp at h
  | some nxt =>
    rw [hs] at h
    exact ⟨nxt, rfl, h⟩

/-- Equal resolved configurations give equal `solve` results. -/
theorem solve_congr_config {a b : Args} (mk : Nat → Int → Nat → Manager)
    (search : ModelSpec → Option (Nat → Nat))
    (h : resolveConfig a = resolveConfig b) :
    solve a mk search = solve b mk search := by
  simp only [solve, h]

end PyVrp

namespace PyVrp

/-- C3 counterexample: a call with zero vehicle capacity is not rejected
before the search.  With capacity 0 the search is still consulted — a
search reporting no solution makes `solve` return `None`, and a search
returning an assignment makes `solve` return a decoded `Solution` — so
no configuration error is raised before (or instead of) the search. -/
theorem zero_capacity_reaches_search_and_solves :
    args3bad.vehicle_cap ≤ 0 ∧
    solve args3bad mk2 (fun _ => none) = none ∧
    (solve args3bad mk2 search2).isSome = true ∧
    (((solve args3bad mk2 search2).getD []).getD 0 []).map Stop.idx = [0, 1, 0] := by
  refine ⟨by decide, rfl, rfl, rfl⟩

/-- C3 amended: `solve` performs no input validation.  A call whose
configuration the spec's §7 calls a configuration error — non-positive
vehicle capacity, supplied non-positive vehicle count, non-square or
negative distance matrix — proceeds to the search like any other call:
the result is `None` when the search finds nothing, and the decode of
the search's assignment otherwise. -/
theorem invalid_config_still_searched (a : Args) (mk : Nat → Int → Nat → Manager)
    (search : ModelSpec → Option (Nat → Nat)) (hbad : InvalidConfig a) :
    (search (mkModelSpec (resolveConfig a)) = none → solve a mk search = none) ∧
    ∀ nxt, search (mkModelSpec (resolveConfig a)) = some nxt →
      solve a mk search =
        decodeRoutes (mk (resolveConfig a).NUM_NODES (resolveConfig a).NUM_VEHICLES
            (resolveConfig a).DEPOT_INDEX)
          (resolveConfig a).DISTANCE_MATRIX (resolveConfig a).NODES
          (resolveConfig a).DEMAND nxt
          (List.range (resolveConfig a).NUM_VEHICLES.toNat) := by
  constructor
  · intro h; simp [solve, h]
  · intro nxt h; simp [solve, h]

/-- C3 amended witness: with zero vehicle capacity and a search that
finds nothing, `solve` reaches the search and returns its `None`. -/
theorem invalid_config_still_searched_witness :
    solve args3bad mk2 (fun _ => none) = none :=
  (invalid_config_still_searched args3bad mk2 (fun _ => none)
    (Or.inl (by decide))).1 rfl

/-- C4: when the search produces no assignment, `solve` falls through
its `if assignment:` guard and returns Python `None` — an outcome
distinct from any `Solution`, in particular from an empty route list. -/
theorem no_assignment_returns_none (a : Args) (mk : Nat → Int → Nat → Manager)
    (search : ModelSpec → Option (Nat → Nat))
    (h : search (mkModelSpec (resolveConfig a)) = none) :
    solve a mk search = none ∧ solve a mk search ≠ some [] := by
  have hnone : solve a mk search = none := by simp [solve, h]
  exact ⟨hnone, by simp [hnone]⟩

/-- C4 witness: a search returning no assignment on the `args3`
scenario. -/
theorem no_assignment_returns_none_witness :
    solve args3 mk3 (fun _ => none) = none :=
  (no_assignment_returns_none args3 mk3 (fun _ => none) rfl).1

/-- C5: in every route of a successful `solve`, the first and the last
stop carry the depot's logical node index, provided the manager maps
every vehicle start and every end position to the depot (the
`RoutingIndexManager` contract for a single-depot model). -/
theorem routes_start_and_end_at_depot (a : Args) (mk : Nat → Int → Nat → Manager)
    (search : ModelSpec → Option (Nat → Nat)) (sol : Solution) (m : Manager)
    (hm : m = mk (resolveConfig a).NUM_NODES (resolveConfig a).NUM_VEHICLES
        (resolveConfig a).DEPOT_INDEX)
    (hsol : solve a mk search = some sol)
    (hstart : ∀ v ∈ List.range (resolveConfig a).NUM_VEHICLES.toNat,
        m.indexToNode (m.start v) = a.depot_index)
    (hend : ∀ i, m.isEnd i = true → m.indexToNode i = a.depot_index) :
    ∀ r ∈ sol, r.head?.map Stop.idx = some a.depot_index ∧
      r.getLast?.map Stop.idx = some a.depot_index := by
  obtain ⟨nxt, hs, hdec⟩ := solve_eq_some a mk search sol hsol
  rw [← hm] at hdec
  intro r hr
  obtain ⟨v, hv, hEnd, hwalk⟩ := decodeRoutes_mem m _ _ _ nxt _ _ hdec r hr
  constructor
  · obtain ⟨t, ht⟩ := walkRoute_shape m _ _ _ nxt _ _ _ _ _ hwalk
    rw [ht]
    simp [mkStop, hstart v hv]
  · obtain ⟨j, hj, hlast⟩ := walkRoute_last m _ _ _ nxt _ _ _ _ _ hwalk
    rw [hlast]
    simp [mkStop, hend j hj]

/-- C5 witness: the decoded route of the `args3` scenario starts and
ends at the depot node 0. -/
theorem routes_start_and_end_at_depot_witness :
    (((solve args3 mk3 search3).getD []).getD 0 []).head?.map Stop.idx = some 0 ∧
    (((solve args3 mk3 search3).getD []).getD 0 []).getLast?.map Stop.idx = some 0 := by
  have h := routes_start_and_end_at_depot args3 mk3 search3
    [((solve args3 mk3 search3).getD []).getD 0 []] M3 rfl rfl
    (by decide)
    (by
      intro i hi
      have h3 : i = 3 := by simpa [M3] using hi
      subst h3
      rfl)
  exact h _ (List.mem_singleton.mpr rfl)

/-- C6: every route of a successful `solve` whose assignment satisfies
the Capacity dimension's per-vehicle bound has cumulative demand — the
sum of `Stop.demand` over its stops excluding the trailing depot stop —
at most the configured vehicle capacity. -/
theorem route_demand_within_capacity (a : Args) (mk : Nat → Int → Nat → Manager)
    (search : ModelSpec → Option (Nat → Nat)) (nxt : Nat → Nat)
    (sol : Solution) (m : Manager)
    (hm : m = mk (resolveConfig a).NUM_NODES (resolveConfig a).NUM_VEHICLES
        (resolveConfig a).DEPOT_INDEX)
    (hs : search (mkModelSpec (resolveConfig a)) = some nxt)
    (hsol : solve a mk search = some sol)
    (hcap : ∀ v ∈ List.range (resolveConfig a).NUM_VEHICLES.toNat,
        chainDemand m (resolveConfig a).DEMAND nxt (m.size + 1) (m.start v) ≤
          a.vehicle_cap) :
    ∀ r ∈ sol, (r.dropLast.map Stop.demand).sum ≤ a.vehicle_cap := by
  simp only [solve] at hsol
  rw [hs] at hsol
  rw [← hm] at hsol
  intro r hr
  obtain ⟨v, hv, hEnd, hwalk⟩ := decodeRoutes_mem m _ _ _ nxt _ _ hsol r hr
  have hsum := walkRoute_demand_sum m _ _ _ nxt _ _ _ _ _ hwalk
  rw [hsum]
  simpa using hcap v hv

/-- C6 witness: the decoded route of the `args3` scenario has cumulative
demand within the default capacity 26. -/
theorem route_demand_within_capacity_witness :
    ((((solve args3 mk3 search3).getD []).getD 0 []).dropLast.map Stop.demand).sum ≤
      (26 : Int) :=
  route_demand_within_capacity args3 mk3 search3 nxt3
    [((solve args3 mk3 search3).getD []).getD 0 []] M3 rfl rfl rfl
    (by decide) _ (List.mem_singleton.mpr rfl)

/-- C7: a vehicle whose start's successor is its end contributes no
route — a successful `solve` has exactly one route per vehicle whose
start's successor is not an end — and, when the distinct first positions
of the used vehicles all lie in a list `ps` of interior (non-depot)
positions, the solution has at most `ps.length` routes.  For an ortools
assignment `ps` is the set of customer positions, of size
`NUM_NODES - 1`, giving the claim's bound. -/
theorem unused_vehicles_skipped_and_solution_bounded (a : Args)
    (mk : Nat → Int → Nat → Manager) (search : ModelSpec → Option (Nat → Nat))
    (nxt : Nat → Nat) (sol : Solution) (m : Manager) (ps : List Nat)
    (hm : m = mk (resolveConfig a).NUM_NODES (resolveConfig a).NUM_VEHICLES
        (resolveConfig a).DEPOT_INDEX)
    (hs : search (mkModelSpec (resolveConfig a)) = some nxt)
    (hsol : solve a mk search = some sol)
    (himg : ∀ v ∈ List.range (resolveConfig a).NUM_VEHICLES.toNat,
        m.isEnd (nxt (m.start v)) = false → nxt (m.start v) ∈ ps)
    (hinj : ∀ v ∈ List.range (resolveConfig a).NUM_VEHICLES.toNat,
        ∀ w ∈ List.range (resolveConfig a).NUM_VEHICLES.toNat,
          m.isEnd (nxt (m.start v)) = false → m.isEnd (nxt (m.start w)) = false →
            nxt (m.start v) = nxt (m.start w) → v = w) :
    sol.length = ((List.range (resolveConfig a).NUM_VEHICLES.toNat).filter
        (fun v => !(m.isEnd (nxt (m.start v))))).length ∧
    sol.length ≤ ps.length := by
  simp only [solve] at hsol
  rw [hs] at hsol
  rw [← hm] at hsol
  have hlen := decodeRoutes_length m _ _ _ nxt _ _ hsol
  refine ⟨hlen, ?_⟩
  rw [hlen]
  set used := (List.range (resolveConfig a).NUM_VEHICLES.toNat).filter
    (fun v => !(m.isEnd (nxt (m.start v)))) with hused
  have hmemused : ∀ v ∈ used, v ∈ List.range (resolveConfig a).NUM_VEHICLES.toNat ∧
      m.isEnd (nxt (m.start v)) = false := by
    intro v hv
    rw [hused, List.mem_filter] at hv
    exact ⟨hv.1, by simpa using hv.2⟩
  have hnodup : (used.map (fun v => nxt (m.start v))).Nodup := by
    refine List.Nodup.map_on ?_ ((List.nodup_range _).filter _)
    intro x hx y hy hxy
    exact hinj x (hmemused x hx).1 y (hmemused y hy).1
      (hmemused x hx).2 (hmemused y hy).2 hxy
  have hsub : ∀ x ∈ used.map (fun v => nxt (m.start v)), x ∈ ps := by
    intro x hx
    obtain ⟨v, hv, hvx⟩ := List.mem_map.mp hx
    rw [← hvx]
    exact himg v (hmemused v hv).1 (hmemused v hv).2
  have := nodup_subset_length_le hnodup hsub
  rwa [List.length_map] at this

/-- C7 witness: two vehicles, one customer — the unused vehicle is
skipped and the solution has at most one route. -/
theorem unused_vehicles_skipped_and_solution_bounded_witness :
    ((solve args7 mk7 search7).getD []).length =
      ((List.range 2).filter (fun v => !(M7.isEnd (nxt7 (M7.start v))))).length ∧
    ((solve args7 mk7 search7).getD []).length ≤ [2].length :=
  unused_vehicles_skipped_and_solution_bounded args7 mk7 search7 nxt7
    ((solve args7 mk7 search7).getD []) M7 [2] rfl rfl rfl
    (by decide) (by decide)

/-- C8: a depot-exclusive demand vector of length `N - 1` resolves to
the same configuration — including the default vehicle count — and hence
the same `solve` result as the depot-inclusive vector with a 0
prepended, all other arguments equal. -/
theorem demand_padding_idempotent (a : Args) (mk : Nat → Int → Nat → Manager)
    (search : ModelSpec → Option (Nat → Nat))
    (h : (a.demand.length : Int) = (a.distance_matrix.length : Int) - 1) :
    resolveConfig a = resolveConfig { a with demand := 0 :: a.demand } ∧
    solve a mk search = solve { a with demand := 0 :: a.demand } mk search := by
  have hpad : resolveConfig a = resolveConfig { a with demand := 0 :: a.demand } := by
    simp only [resolveConfig, List.length_cons]
    split_ifs <;> first | rfl | (exfalso; push_cast at *; omega)
  exact ⟨hpad, solve_congr_config mk search hpad⟩

/-- C8 witness: demand `[1, 1]` over a 3-node matrix behaves exactly as
demand `[0, 1, 1]`. -/
theorem demand_padding_idempotent_witness :
    resolveConfig args8 = resolveConfig { args8 with demand := 0 :: args8.demand } ∧
    solve args8 mk3 search3 = solve { args8 with demand := 0 :: args8.demand } mk3 search3 :=
  demand_padding_idempotent args8 mk3 search3 (by decide)

end PyVrp
